import Mathlib

/-!
Shallow embedding of the multi-provider SEO article generation core of
`seo-agent-vercel` (source files `lib/ai-writers.ts`, `api/generate.ts`,
`api/schedule.ts`), together with theorems settling the frozen claims
about its specification.

Conventions of the embedding:
* JavaScript strings manipulated character-wise are `List Char`.
* JavaScript numbers that the claims exercise are `Int` (scores) or
  `Nat` (word counts, ids, times); the claims do not hinge on floats.
* A `throw` is an `Except.error` carrying the thrown message.
* The three vendor SDK calls are replaced by explicit response values /
  outcome oracles: the embedding describes what each function does with
  a vendor response, which is all the claims speak about.
-/

namespace SeoAgent

/-! ## Whitespace splitting (JS `content.split(/\s+/).length`)

`lib/ai-writers.ts` computes `wordCount` as `content.split(/\s+/).length`.
`splitWsAux`/`splitWsSkip` model ECMAScript `String.prototype.split` with
separator regex `/\s+/`: the string is cut at every maximal run of
whitespace; a leading run contributes a leading empty segment, a trailing
run a trailing empty segment, and the empty string yields `[""]`
(the regex never matches the empty input, so the whole string is the one
segment). -/

/-- Whitespace characters recognised by the JS `\s` class (the subset that
can occur in the generated text). -/
def isWsChar (c : Char) : Bool :=
  c == ' ' || c == '\t' || c == '\n' || c == '\r' || c == '\x0b' || c == '\x0c'

mutual

/-- Segments of a JS `split(/\s+/)` while inside a (possibly empty) segment
whose already-read characters are `cur` (reversed). -/
def splitWsAux : List Char → List Char → List (List Char)
  | [], cur => [cur.reverse]
  | c :: rest, cur =>
    if isWsChar c then cur.reverse :: splitWsSkip rest
    else splitWsAux rest (c :: cur)

/-- Segments of a JS `split(/\s+/)` while inside a whitespace run
(the run is consumed as one separator). -/
def splitWsSkip : List Char → List (List Char)
  | [] => [[]]
  | c :: rest => if isWsChar c then splitWsSkip rest else splitWsAux rest [c]

end

/-- JS `s.split(/\s+/)`. -/
def splitWs (s : List Char) : List (List Char) :=
  splitWsAux s []

/-- JS `s.split(/\s+/).length`, the expression the adapters assign to
`wordCount` (`lib/ai-writers.ts` lines 132, 186, 232). -/
def jsWordCount (s : List Char) : Nat :=
  (splitWs s).length

mutual

/-- Modelled from the spec: the "whitespace-token count" of a string — the
number of maximal runs of non-whitespace characters. State: outside a token. -/
def countTokens : List Char → Nat
  | [] => 0
  | c :: rest => if isWsChar c then countTokens rest else countTokensIn rest + 1

/-- Modelled from the spec: companion of `countTokens` while inside a token
(the current token has already been counted). -/
def countTokensIn : List Char → Nat
  | [] => 0
  | c :: rest => if isWsChar c then countTokens rest else countTokensIn rest

end

/-! ## Data model (`lib/ai-writers.ts` lines 15-42) -/

/-- The three providers, `'gemini' | 'chatgpt' | 'claude'`. -/
inductive Writer where
  | gemini
  | chatgpt
  | claude
deriving DecidableEq, Repr

/-- The optional `scores` record of a `GeneratedArticle`. -/
structure Scores where
  seo : Int
  readability : Int
  engagement : Int
  total : Int
deriving DecidableEq, Repr

/-- `GeneratedArticle` (`lib/ai-writers.ts` lines 24-36). `content` is a JS
string as a character list; `generatedAt` is a timestamp. -/
structure GeneratedArticle where
  title : String
  content : List Char
  writer : Writer
  wordCount : Nat
  generatedAt : Nat := 0
  scores : Option Scores := none
deriving DecidableEq, Repr

/-- `AIConfig` (`lib/ai-writers.ts` lines 38-42): one optional API key per
provider. `none` models an absent environment variable, `some ""` an empty
one. -/
structure AIConfig where
  geminiApiKey : Option String := none
  openaiApiKey : Option String := none
  anthropicApiKey : Option String := none
deriving DecidableEq, Repr

/-! ## Selector (`selectBestArticle`, `lib/ai-writers.ts` lines 309-330) -/

/-- Message thrown by `selectBestArticle` on an empty input. -/
def noArticlesMsg : String := "No articles to select from"

/-- The score `selectBestArticle` attaches to an article:
`article.scores?.total || article.wordCount`. JS `||` takes the right
operand whenever the left is falsy, and the number `0` is falsy, so a
present score whose `total` is `0` also falls back to the word count. -/
def rankScore (a : GeneratedArticle) : Int :=
  match a.scores with
  | some sc => if sc.total = 0 then (a.wordCount : Int) else sc.total
  | none => (a.wordCount : Int)

/-- Insert a scored article into a descending-sorted list, after all
strictly greater scores and before equal ones. This realises the ECMAScript
guarantee that `Array.prototype.sort` is stable: an element earlier in the
input stays before later elements that compare equal. -/
def insertScoredDesc (x : GeneratedArticle × Int) :
    List (GeneratedArticle × Int) → List (GeneratedArticle × Int)
  | [] => [x]
  | y :: ys => if x.2 ≥ y.2 then x :: y :: ys else y :: insertScoredDesc x ys

/-- Stable descending sort by score: the embedding of
`scored.sort((a, b) => b.score - a.score)`. -/
def sortScoredDesc : List (GeneratedArticle × Int) → List (GeneratedArticle × Int)
  | [] => []
  | x :: xs => insertScoredDesc x (sortScoredDesc xs)

/-- `selectBestArticle` (`lib/ai-writers.ts` lines 309-330): throw on empty
input, return a singleton unchanged, otherwise pair each article with its
score, sort descending (stably) and return the first article. The `headD`
default is never used (the sorted list of a non-empty list is non-empty). -/
def selectBestArticle (articles : List GeneratedArticle) :
    Except String GeneratedArticle :=
  match articles with
  | [] => .error noArticlesMsg
  | [a] => .ok a
  | a :: b :: rest =>
    let scored := (a :: b :: rest).map (fun x => (x, rankScore x))
    let sorted := sortScoredDesc scored
    .ok (sorted.headD (a, rankScore a)).1

/-- Proof helper: first element of a list attaining the maximal score
(earlier elements win ties). -/
def firstMaxP : List (GeneratedArticle × Int) → Option (GeneratedArticle × Int)
  | [] => none
  | x :: xs =>
    match firstMaxP xs with
    | none => some x
    | some b => if x.2 ≥ b.2 then some x else some b

/-! ## Orchestrator (`generateArticlesParallel`, `lib/ai-writers.ts`
lines 252-304)

A provider call is modelled by the outcome the vendor promise settles with
(`Except.error` models a rejected promise, i.e. the adapter's `throw`)
together with the instant at which it settles. `Promise.allSettled` waits
for every promise and resolves with the outcomes **in the order of its
input array**, regardless of when each promise settled — the settle times
are recorded only so that the completion order is expressible. -/

/-- One dispatched provider invocation: when it settles and with what. -/
structure ProviderCall where
  settleTime : Nat
  outcome : Except String GeneratedArticle
deriving Repr

/-- Message thrown when no provider is enabled
(`lib/ai-writers.ts` line 277). -/
def noKeysMsg : String :=
  "No API keys configured. At least one AI provider is required."

/-- Message thrown when every dispatched provider failed
(`lib/ai-writers.ts` line 298). -/
def allFailedMsg : String := "All AI writers failed to generate content"

/-- JS truthiness of an optional string credential: an absent key and the
empty string are falsy, every other string is truthy. -/
def truthyKey : Option String → Bool
  | none => false
  | some s => !s.isEmpty

/-- The credential `generateArticlesParallel` tests for each provider. -/
def keyFor (config : AIConfig) : Writer → Option String
  | .gemini => config.geminiApiKey
  | .chatgpt => config.openaiApiKey
  | .claude => config.anthropicApiKey

/-- The providers dispatched by `generateArticlesParallel`, in the order
the source pushes them onto `promises` (`lib/ai-writers.ts` lines 262-274):
Gemini, then ChatGPT, then Claude, each present iff its key is truthy. -/
def enabledWriters (config : AIConfig) : List Writer :=
  (if truthyKey config.geminiApiKey then [Writer.gemini] else []) ++
    (if truthyKey config.openaiApiKey then [Writer.chatgpt] else []) ++
      (if truthyKey config.anthropicApiKey then [Writer.claude] else [])

/-- `Promise.allSettled(promises)`: one settled outcome per dispatched
promise, in input order (ECMAScript guarantees the result array parallels
the input array; settle times play no role). -/
def allSettled (calls : Writer → ProviderCall) (ws : List Writer) :
    List (Except String GeneratedArticle) :=
  ws.map (fun w => (calls w).outcome)

/-- The `fulfilled` filter of the settled results
(`lib/ai-writers.ts` lines 287-295). -/
def okArticle : Except String GeneratedArticle → Option GeneratedArticle
  | .ok a => some a
  | .error _ => none

/-- `generateArticlesParallel` (`lib/ai-writers.ts` lines 252-304):
determine the enabled providers from the config, throw `noKeysMsg` if none
is enabled (no call is dispatched), otherwise settle all dispatched calls,
keep the fulfilled ones in settled-array order, throw `allFailedMsg` if
none fulfilled, and return the articles otherwise. -/
def generateArticlesParallel (config : AIConfig)
    (calls : Writer → ProviderCall) :
    Except String (List GeneratedArticle) :=
  let writers := enabledWriters config
  if writers.isEmpty then .error noKeysMsg
  else
    let results := allSettled calls writers
    let articles := results.filterMap okArticle
    if articles.isEmpty then .error allFailedMsg
    else .ok articles

/-- Modelled from the spec: insertion step of the ascending-by-settle-time
sort used to express "completion settlement order" (the order in which the
dispatched calls finish). -/
def insertByTime (calls : Writer → ProviderCall) (w : Writer) :
    List Writer → List Writer
  | [] => [w]
  | v :: vs =>
    if (calls w).settleTime < (calls v).settleTime then w :: v :: vs
    else v :: insertByTime calls w vs

/-- Modelled from the spec: the dispatched providers sorted by the instant
their call settles. -/
def sortByTime (calls : Writer → ProviderCall) : List Writer → List Writer
  | [] => []
  | w :: ws => insertByTime calls w (sortByTime calls ws)

/-- Modelled from the spec: the successful results in completion-settlement
order — the sequence the spec asserts `generateAll` returns. -/
def completionOrderResults (config : AIConfig)
    (calls : Writer → ProviderCall) : List GeneratedArticle :=
  (sortByTime calls (enabledWriters config)).filterMap
    (fun w => okArticle (calls w).outcome)

/-- The `articles` array `generateArticlesParallel` builds from the
settled results: the fulfilled outcomes, in dispatch order. -/
def successResults (config : AIConfig) (calls : Writer → ProviderCall) :
    List GeneratedArticle :=
  (allSettled calls (enabledWriters config)).filterMap okArticle

/-! ## Request validation (`validateOutline`, `api/generate.ts` lines 26-48)

`validateOutline` receives an arbitrary parsed JSON request body, so the
embedding needs a model of untyped JavaScript values with JS truthiness,
`typeof`, `Array.isArray` and property access. -/

/-- An untyped JavaScript value, as far as `validateOutline` can observe
one. Numbers are `Int` (the checks only use `typeof`). -/
inductive JSValue where
  | undefined
  | null
  | bool (b : Bool)
  | num (n : Int)
  | str (s : String)
  | arr (elems : List JSValue)
  | obj (fields : List (String × JSValue))

/-- JS `typeof`: note `typeof null`, `typeof []` and `typeof {}` are all
the string `"object"`. -/
def jsTypeof : JSValue → String
  | .undefined => "undefined"
  | .null => "object"
  | .bool _ => "boolean"
  | .num _ => "number"
  | .str _ => "string"
  | .arr _ => "object"
  | .obj _ => "object"

/-- JS truthiness: `undefined`, `null`, `false`, `0` and `""` are falsy;
every array and object is truthy. -/
def jsTruthy : JSValue → Bool
  | .undefined => false
  | .null => false
  | .bool b => b
  | .num n => n != 0
  | .str s => !s.isEmpty
  | .arr _ => true
  | .obj _ => true

/-- Property access `v[key]` for the keys `validateOutline` reads: defined
fields of an object, `undefined` everywhere else (the named properties read
by the source do not exist on arrays or primitives). -/
def jsGet (v : JSValue) (key : String) : JSValue :=
  match v with
  | .obj fields => ((fields.find? (fun f => f.1 == key)).map (fun f => f.2)).getD .undefined
  | _ => .undefined

/-- JS `Array.isArray`. -/
def isArrB : JSValue → Bool
  | .arr _ => true
  | _ => false

/-- Length of a JS array value (`0` on non-arrays; only used under an
`isArrB` guard). -/
def arrLen : JSValue → Nat
  | .arr elems => elems.length
  | _ => 0

/-- Elements of a JS array value (`[]` on non-arrays). -/
def arrElems : JSValue → List JSValue
  | .arr elems => elems
  | _ => []

/-- The string content of a JS string value (only used under a `typeof`
guard). -/
def asStr : JSValue → String
  | .str s => s
  | _ => ""

/-- `ArticleOutline` (`lib/ai-writers.ts` lines 16-22) as `validateOutline`
actually builds it: the source casts `keywords` and `sections` with `as
string[]` without checking the elements, so they stay untyped values here. -/
structure ArticleOutline where
  topic : String
  keywords : List JSValue
  targetLength : Int
  sections : List JSValue
  category : String

/-- Condition of the first throw of `validateOutline`:
`!body || typeof body !== 'object'`. -/
def bodyBad (body : JSValue) : Bool :=
  !jsTruthy body || jsTypeof body != "object"

/-- Condition of the second throw of `validateOutline`:
`!outline.topic || typeof outline.topic !== 'string'`. -/
def topicBad (body : JSValue) : Bool :=
  !jsTruthy (jsGet body "topic") || jsTypeof (jsGet body "topic") != "string"

/-- Condition of the third throw of `validateOutline`:
`!Array.isArray(outline.keywords) || outline.keywords.length === 0`. -/
def keywordsBad (body : JSValue) : Bool :=
  !isArrB (jsGet body "keywords") || arrLen (jsGet body "keywords") == 0

/-- Message of the first throw of `validateOutline`. -/
def bodyRequiredMsg : String := "Request body is required"

/-- Message of the second throw of `validateOutline`. -/
def topicRequiredMsg : String := "topic is required and must be a string"

/-- Message of the third throw of `validateOutline`. -/
def keywordsRequiredMsg : String :=
  "keywords is required and must be a non-empty array"

/-- The ternary
`typeof outline.targetLength === 'number' ? outline.targetLength : 1500`:
the value of a number field, or the default. -/
def jsNumOr (v : JSValue) (d : Int) : Int :=
  match v with
  | .num n => n
  | _ => d

/-- The ternary
`outline.category === 'kompensatory_svg' ? 'kompensatory_svg' : 'kompensacja_mocy_biernej'`:
strict string comparison against `'kompensatory_svg'`, defaulting to
`'kompensacja_mocy_biernej'` for every other value. -/
def jsCategoryOf (v : JSValue) : String :=
  match v with
  | .str s => if s == "kompensatory_svg" then s else "kompensacja_mocy_biernej"
  | _ => "kompensacja_mocy_biernej"

/-- `validateOutline` (`api/generate.ts` lines 26-48): three guard throws,
then an outline with defaults — `targetLength` defaults to `1500` unless
`typeof` of the field is `'number'`, `sections` defaults to `[]` unless the
field is an array, and `category` is `'kompensatory_svg'` only when the
field strictly equals that string, every other value giving
`'kompensacja_mocy_biernej'`. -/
def validateOutline (body : JSValue) : Except String ArticleOutline :=
  if bodyBad body then .error bodyRequiredMsg
  else if topicBad body then .error topicRequiredMsg
  else if keywordsBad body then .error keywordsRequiredMsg
  else
    .ok
      { topic := asStr (jsGet body "topic")
        keywords := arrElems (jsGet body "keywords")
        targetLength := jsNumOr (jsGet body "targetLength") 1500
        sections := arrElems (jsGet body "sections")
        category := jsCategoryOf (jsGet body "category") }

/-- Whether a JS value is exactly the string `'kompensatory_svg'`
(the strict equality test of `validateOutline`'s `category` default). -/
def isSvgB : JSValue → Bool
  | .str s => s == "kompensatory_svg"
  | _ => false

/-! ## Provider adapters (`lib/ai-writers.ts` lines 116-247)

Each adapter issues one vendor call and, on success, builds a
`GeneratedArticle` whose `wordCount` is recomputed from the extracted text
by `content.split(/\s+/).length`. The vendor responses are modelled with
the fields the adapters read, plus a vendor-reported word count
(`usageWords`) standing for any count the vendor metadata carries — the
source never reads such a field, which the theorems make explicit. -/

/-- A Gemini response as `writeWithGemini` observes it:
`response.text()` plus ignored vendor metadata. -/
structure GeminiResponse where
  text : List Char
  usageWords : Nat

/-- A ChatGPT response as `writeWithChatGPT` observes it:
`response.choices[0]?.message?.content` (`none` models a missing choice,
message or content) plus ignored vendor metadata. -/
structure ChatGPTResponse where
  content : Option (List Char)
  usageWords : Nat

/-- One Anthropic content block: a text block or any other block kind. -/
inductive ClaudeBlock where
  | text (s : List Char)
  | other

/-- A Claude response as `writeWithClaude` observes it: the content block
array plus ignored vendor metadata. -/
structure ClaudeResponse where
  content : List ClaudeBlock
  usageWords : Nat

/-- `response.content[0]?.type === 'text' ? response.content[0].text : ''`
(`lib/ai-writers.ts` lines 229-231). -/
def claudeText : List ClaudeBlock → List Char
  | ClaudeBlock.text s :: _ => s
  | _ => []

/-- Success path of `writeWithGemini` (`lib/ai-writers.ts` lines 116-147):
content is `response.text()`, `wordCount` is recomputed from it, `title` is
the brief's topic. -/
def writeWithGemini (outline : ArticleOutline) (resp : GeminiResponse)
    (now : Nat) : GeneratedArticle :=
  let content := resp.text
  { title := outline.topic
    content := content
    writer := Writer.gemini
    wordCount := jsWordCount content
    generatedAt := now }

/-- Success path of `writeWithChatGPT` (`lib/ai-writers.ts` lines 152-201):
content is `response.choices[0]?.message?.content || ''` (a missing or
empty content becomes the empty string), `wordCount` is recomputed from it. -/
def writeWithChatGPT (outline : ArticleOutline) (resp : ChatGPTResponse)
    (now : Nat) : GeneratedArticle :=
  let content := resp.content.getD []
  { title := outline.topic
    content := content
    writer := Writer.chatgpt
    wordCount := jsWordCount content
    generatedAt := now }

/-- Success path of `writeWithClaude` (`lib/ai-writers.ts` lines 206-247):
content is the first content block's text when that block is a text block,
else the empty string; `wordCount` is recomputed from it. -/
def writeWithClaude (outline : ArticleOutline) (resp : ClaudeResponse)
    (now : Nat) : GeneratedArticle :=
  let content := claudeText resp.content
  { title := outline.topic
    content := content
    writer := Writer.claude
    wordCount := jsWordCount content
    generatedAt := now }

/-! ## Scheduled handler (`api/generate.ts`, cron document, lines 261-341)

The part of the cron handler after the topic has been chosen: generate,
select, try to publish to Odoo, and build the JSON response. A publishing
failure is caught (`try/catch` around `publishToOdoo`) and leaves
`odooResult` at `null`; the response is then still a 200 success carrying
the article, with `odoo: null`. -/

/-- The observable JSON response of the scheduled handler. -/
structure ScheduleResponse where
  status : Nat
  success : Bool
  articleTitle : Option String := none
  articleWriter : Option Writer := none
  articleWordCount : Option Nat := none
  odoo : Option (Nat × String) := none
  errorMsg : Option String := none
deriving DecidableEq, Repr

/-- The generation-and-publish phase of the scheduled handler
(`api/generate.ts`, cron document, lines 299-331): any throw of
`generateArticlesParallel` or `selectBestArticle` reaches the outer catch
and yields a 500 failure; an Odoo failure only nulls the `odoo` field of
the 200 success response. `odooOutcome` is the settled outcome that
`publishToOdoo` would produce. -/
def scheduleHandler (config : AIConfig) (calls : Writer → ProviderCall)
    (odooOutcome : Except String Nat) : ScheduleResponse :=
  match generateArticlesParallel config calls with
  | .error e => { status := 500, success := false, errorMsg := some e }
  | .ok articles =>
    match selectBestArticle articles with
    | .error e => { status := 500, success := false, errorMsg := some e }
    | .ok best =>
      let odooResult : Option Nat :=
        match odooOutcome with
        | .ok id => some id
        | .error _ => none
      { status := 200
        success := true
        articleTitle := some best.title
        articleWriter := some best.writer
        articleWordCount := some best.wordCount
        odoo := odooResult.map (fun id => (id, "draft")) }

/-! ## Concrete values used by counterexamples and witnesses -/

/-- Article with a present score record whose `total` is `0` and a large
word count. -/
def exA1 : GeneratedArticle :=
  { title := "gemini draft"
    content := []
    writer := Writer.gemini
    wordCount := 100
    scores := some { seo := 0, readability := 0, engagement := 0, total := 0 } }

/-- Article with a present non-zero score `total` of `50` and a small word
count. -/
def exA2 : GeneratedArticle :=
  { title := "chatgpt draft"
    content := []
    writer := Writer.chatgpt
    wordCount := 10
    scores := some { seo := 10, readability := 20, engagement := 20, total := 50 } }

/-- Article without scores whose word count ties with `exA1`'s rank. -/
def exA3 : GeneratedArticle :=
  { title := "claude draft"
    content := []
    writer := Writer.claude
    wordCount := 100 }

/-- The spec's scenario credentials: provider A has a key, B's key is the
empty string, C has a key. -/
def cfgEx : AIConfig :=
  { geminiApiKey := some "key1"
    openaiApiKey := some ""
    anthropicApiKey := some "key3" }

/-- All three providers enabled. -/
def cfgAll : AIConfig :=
  { geminiApiKey := some "gk"
    openaiApiKey := some "ok"
    anthropicApiKey := some "ak" }

/-- No credential supplied at all. -/
def cfgNone : AIConfig := {}

/-- Only Gemini enabled. -/
def cfgG : AIConfig := { geminiApiKey := some "gk" }

/-- Call oracle where Gemini succeeds last (time 100), ChatGPT fails
(time 50) and Claude succeeds first (time 1): the completion order of the
successes is Claude before Gemini, the dispatch order the opposite. -/
def exCalls : Writer → ProviderCall
  | .gemini => { settleTime := 100, outcome := .ok exA1 }
  | .chatgpt => { settleTime := 50, outcome := .error "quota exceeded" }
  | .claude => { settleTime := 1, outcome := .ok exA3 }

/-- Same outcomes as `exCalls`, entirely different settle times. -/
def exCallsRetimed : Writer → ProviderCall
  | .gemini => { settleTime := 1, outcome := .ok exA1 }
  | .chatgpt => { settleTime := 2, outcome := .error "quota exceeded" }
  | .claude => { settleTime := 300, outcome := .ok exA3 }

/-- Every provider call fails. -/
def exCallsFail : Writer → ProviderCall :=
  fun _ => { settleTime := 0, outcome := .error "boom" }

/-- Every provider call succeeds with `exA1`. -/
def exCallsOk : Writer → ProviderCall :=
  fun _ => { settleTime := 0, outcome := .ok exA1 }

/-- A content brief for exercising the adapters. -/
def exOutline : ArticleOutline :=
  { topic := "Test"
    keywords := []
    targetLength := 1500
    sections := []
    category := "kompensacja_mocy_biernej" }

/-- A Gemini response whose text `"ab c"` has no boundary whitespace, with
a deliberately wrong vendor-reported count. -/
def exGemResp : GeminiResponse :=
  { text := ['a', 'b', ' ', 'c'], usageWords := 999 }

/-- Request body whose `topic` is the empty string — present and of type
string — and whose `keywords` is a non-empty array. -/
def exBadBody : JSValue :=
  .obj [("topic", .str ""), ("keywords", .arr [.str "k"])]

/-- Minimal valid request body: a topic and one keyword, nothing else. -/
def exGoodBody : JSValue :=
  .obj [("topic", .str "t"), ("keywords", .arr [.str "k"])]

/-- The outline `validateOutline` produces for `exGoodBody`: every default
filled in. -/
def exGoodOutline : ArticleOutline :=
  { topic := "t"
    keywords := [.str "k"]
    targetLength := 1500
    sections := []
    category := "kompensacja_mocy_biernej" }

/-! ## Helper lemmas -/

/-- A non-empty tail inherits the "does not end in whitespace" condition. -/
theorem lastOk_of_cons {c : Char} {rest : List Char}
    (h : ∀ d, (c :: rest).getLast? = some d → isWsChar d = false) :
    ∀ d, rest.getLast? = some d → isWsChar d = false := by
  intro d hd
  apply h
  cases rest with
  | nil => simp at hd
  | cons r rs => rw [List.getLast?_cons_cons]; exact hd

/-- Joint split/token-count lemma, by strong induction on the string
length: on a string that does not end in whitespace, the number of JS
split segments from inside a segment is one more than the number of
remaining tokens, and from inside a whitespace run it is exactly the
number of remaining tokens. -/
theorem splitWs_count_aux :
    ∀ n : Nat, ∀ s : List Char, s.length ≤ n →
      (∀ d, s.getLast? = some d → isWsChar d = false) →
      (∀ cur, (splitWsAux s cur).length = countTokensIn s + 1) ∧
        (s ≠ [] → (splitWsSkip s).length = countTokens s) := by
  intro n
  induction n with
  | zero =>
    intro s hlen _
    have hs : s = [] := List.eq_nil_of_length_eq_zero (Nat.le_zero.mp hlen)
    subst hs
    exact ⟨fun cur => by simp [splitWsAux, countTokensIn], fun h => absurd rfl h⟩
  | succ n ih =>
    intro s hlen hlast
    cases s with
    | nil =>
      exact ⟨fun cur => by simp [splitWsAux, countTokensIn], fun h => absurd rfl h⟩
    | cons c rest =>
      have hlenR : rest.length ≤ n := by
        simpa [Nat.succ_le_succ_iff] using hlen
      have hlastR := lastOk_of_cons hlast
      have ihR := ih rest hlenR hlastR
      by_cases hws : isWsChar c = true
      · have hne : rest ≠ [] := by
          intro hr
          subst hr
          have hcf := hlast c (by simp)
          rw [hws] at hcf
          exact absurd hcf (by simp)
        refine ⟨fun cur => ?_, fun _ => ?_⟩
        · simp only [splitWsAux, hws, if_true, List.length_cons,
            countTokensIn, ihR.2 hne]
        · simp only [splitWsSkip, hws, if_true, countTokens, ihR.2 hne]
      · have hws' : isWsChar c = false := Bool.eq_false_iff.mpr hws
        refine ⟨fun cur => ?_, fun _ => ?_⟩
        · simp only [splitWsAux, hws', if_false, countTokensIn,
            Bool.false_eq_true, ihR.1 (c :: cur)]
        · simp only [splitWsSkip, hws', if_false, countTokens,
            Bool.false_eq_true, ihR.1 [c]]

/-- On a non-empty string that neither starts nor ends with whitespace,
the JS `split(/\s+/)` length coincides with the whitespace-token count. -/
theorem jsWordCount_eq_countTokens (s : List Char) (hne : s ≠ [])
    (hhead : ∀ c, s.head? = some c → isWsChar c = false)
    (hlast : ∀ c, s.getLast? = some c → isWsChar c = false) :
    jsWordCount s = countTokens s := by
  cases s with
  | nil => exact absurd rfl hne
  | cons c rest =>
    have hc : isWsChar c = false := hhead c rfl
    have haux := (splitWs_count_aux rest.length rest (Nat.le_refl _)
      (lastOk_of_cons hlast)).1
    simp only [jsWordCount, splitWs, splitWsAux, hc, Bool.false_eq_true,
      if_false, countTokens, haux [c]]

/-- Head of an insertion into a descending-sorted list. -/
theorem insertScoredDesc_head (x : GeneratedArticle × Int)
    (s : List (GeneratedArticle × Int)) :
    (insertScoredDesc x s).head? =
      some (match s.head? with
            | none => x
            | some y => if x.2 ≥ y.2 then x else y) := by
  cases s with
  | nil => rfl
  | cons y ys =>
    simp only [insertScoredDesc, List.head?_cons]
    by_cases h : x.2 ≥ y.2 <;> simp [h]

/-- The head of the stable descending sort is the first score maximum. -/
theorem sortScoredDesc_head (s : List (GeneratedArticle × Int)) :
    (sortScoredDesc s).head? = firstMaxP s := by
  induction s with
  | nil => rfl
  | cons x xs ih =>
    rw [sortScoredDesc, insertScoredDesc_head, ih, firstMaxP]
    cases hfm : firstMaxP xs with
    | none => rfl
    | some b => by_cases h : x.2 ≥ b.2 <;> simp [h]

/-- `firstMaxP` misses only the empty list. -/
theorem firstMaxP_eq_none {s : List (GeneratedArticle × Int)}
    (h : firstMaxP s = none) : s = [] := by
  cases s with
  | nil => rfl
  | cons x xs =>
    rw [firstMaxP] at h
    cases hfm : firstMaxP xs with
    | none => rw [hfm] at h; exact absurd h (by simp)
    | some b =>
      rw [hfm] at h
      by_cases hx : x.2 ≥ b.2 <;> simp [hx] at h

/-- Every element's score is bounded by the first maximum's score. -/
theorem firstMaxP_le :
    ∀ {s : List (GeneratedArticle × Int)} {p}, firstMaxP s = some p →
      ∀ y ∈ s, y.2 ≤ p.2 := by
  intro s
  induction s with
  | nil => intro p h y hy; simp at hy
  | cons x xs ih =>
    intro p h y hy
    cases hfm : firstMaxP xs with
    | none =>
      have hxs : xs = [] := firstMaxP_eq_none hfm
      simp only [firstMaxP, hfm] at h
      obtain rfl : x = p := by injection h
      subst hxs
      simp at hy
      subst hy
      exact le_refl _
    | some b =>
      simp only [firstMaxP, hfm] at h
      by_cases hx : x.2 ≥ b.2
      · rw [if_pos hx] at h
        obtain rfl : x = p := by injection h
        rcases List.mem_cons.mp hy with rfl | hy'
        · exact le_refl _
        · exact le_trans (ih hfm y hy') hx
      · rw [if_neg hx] at h
        obtain rfl : b = p := by injection h
        rcases List.mem_cons.mp hy with rfl | hy'
        · exact le_of_lt (lt_of_not_ge hx)
        · exact ih hfm y hy'

/-- The first maximum splits the list into a strictly smaller prefix, the
maximum itself and a remainder: ties go to the earliest occurrence. -/
theorem firstMaxP_decomp :
    ∀ {s : List (GeneratedArticle × Int)} {p}, firstMaxP s = some p →
      ∃ l1 l2, s = l1 ++ p :: l2 ∧ ∀ y ∈ l1, y.2 < p.2 := by
  intro s
  induction s with
  | nil => intro p h; simp [firstMaxP] at h
  | cons x xs ih =>
    intro p h
    cases hfm : firstMaxP xs with
    | none =>
      simp only [firstMaxP, hfm] at h
      obtain rfl : x = p := by injection h
      exact ⟨[], xs, rfl, by simp⟩
    | some b =>
      simp only [firstMaxP, hfm] at h
      by_cases hx : x.2 ≥ b.2
      · rw [if_pos hx] at h
        obtain rfl : x = p := by injection h
        exact ⟨[], xs, rfl, by simp⟩
      · rw [if_neg hx] at h
        obtain rfl : b = p := by injection h
        obtain ⟨l1, l2, heq, hlt⟩ := ih hfm
        refine ⟨x :: l1, l2, by rw [heq, List.cons_append], ?_⟩
        intro y hy
        rcases List.mem_cons.mp hy with rfl | hy'
        · exact lt_of_not_ge hx
        · exact hlt y hy'

/-- Full behaviour of `selectBestArticle` on a non-empty list: it succeeds
with an element before which every score is strictly smaller and which no
score exceeds. -/
theorem selectBest_spec (l : List GeneratedArticle) (hne : l ≠ []) :
    ∃ best l1 l2, selectBestArticle l = .ok best ∧ l = l1 ++ best :: l2 ∧
      (∀ y ∈ l1, rankScore y < rankScore best) ∧
      (∀ y ∈ l, rankScore y ≤ rankScore best) := by
  match l with
  | [] => exact absurd rfl hne
  | [a] =>
    refine ⟨a, [], [], rfl, rfl, by simp, ?_⟩
    intro y hy
    rw [List.mem_singleton] at hy
    subst hy
    exact le_refl _
  | a :: b :: rest =>
    set scored := (a :: b :: rest).map (fun x => (x, rankScore x)) with hscored
    obtain ⟨p, hp⟩ : ∃ p, firstMaxP scored = some p := by
      cases hfm : firstMaxP scored with
      | none => simp [firstMaxP_eq_none hfm, hscored] at *
      | some q => exact ⟨q, rfl⟩
    have hsel : selectBestArticle (a :: b :: rest) = .ok p.1 := by
      simp only [selectBestArticle]
      rw [List.headD_eq_head?, sortScoredDesc_head, ← hscored, hp, Option.getD_some]
    have hp2 : p.2 = rankScore p.1 := by
      obtain ⟨L1, L2, heq, _⟩ := firstMaxP_decomp hp
      have hpmem : p ∈ scored := by
        rw [heq]
        exact List.mem_append_right _ (List.mem_cons_self _ _)
      rw [hscored] at hpmem
      obtain ⟨x, _, hxp⟩ := List.mem_map.mp hpmem
      rw [← hxp]
    obtain ⟨L1, L2, heq, hlt⟩ := firstMaxP_decomp hp
    have hl : (a :: b :: rest) = scored.map Prod.fst := by
      rw [hscored, List.map_map]
      simp [Function.comp_def]
    refine ⟨p.1, L1.map Prod.fst, L2.map Prod.fst, hsel, ?_, ?_, ?_⟩
    · rw [hl, heq, List.map_append, List.map_cons]
    · intro y hy
      obtain ⟨z, hz, rfl⟩ := List.mem_map.mp hy
      have hz2 : z.2 < p.2 := hlt z hz
      have hzs : z ∈ scored := by
        rw [heq]
        exact List.mem_append_left _ hz
      rw [hscored] at hzs
      obtain ⟨x, _, hxz⟩ := List.mem_map.mp hzs
      rw [hp2] at hz2
      rw [← hxz] at hz2 ⊢
      exact hz2
    · intro y hy
      have hym : (y, rankScore y) ∈ scored := by
        rw [hscored]
        exact List.mem_map.mpr ⟨y, hy, rfl⟩
      have hle := firstMaxP_le hp _ hym
      rw [hp2] at hle
      exact hle

/-- `selectBestArticle` never fails on a non-empty list. -/
theorem selectBest_ok_of_ne_nil (l : List GeneratedArticle) (hne : l ≠ []) :
    ∃ best, selectBestArticle l = .ok best := by
  obtain ⟨best, _, _, hsel, _⟩ := selectBest_spec l hne
  exact ⟨best, hsel⟩

/-- `enabledWriters` contains exactly the providers whose credential is
truthy. -/
theorem enabledWriters_mem (config : AIConfig) (w : Writer) :
    w ∈ enabledWriters config ↔ truthyKey (keyFor config w) = true := by
  cases hg : truthyKey config.geminiApiKey <;>
    cases ho : truthyKey config.openaiApiKey <;>
      cases ha : truthyKey config.anthropicApiKey <;>
        cases w <;>
          simp [enabledWriters, keyFor, hg, ho, ha]

/-- With at least one enabled provider, the orchestrator reduces to the
emptiness test on the fulfilled results. -/
theorem generate_eq_of_enabled (config : AIConfig)
    (calls : Writer → ProviderCall) (h : enabledWriters config ≠ []) :
    generateArticlesParallel config calls =
      if (successResults config calls).isEmpty then .error allFailedMsg
      else .ok (successResults config calls) := by
  simp only [generateArticlesParallel, successResults]
  rw [if_neg (by simpa using h)]

/-- The orchestrator's fulfilled results, indexed by provider. -/
theorem successResults_eq_filterMap (config : AIConfig)
    (calls : Writer → ProviderCall) :
    successResults config calls =
      (enabledWriters config).filterMap (fun w => okArticle (calls w).outcome) := by
  simp [successResults, allSettled, List.filterMap_map, Function.comp_def]

/-- A successful orchestration returns a non-empty list. -/
theorem generate_ok_ne_nil {config : AIConfig} {calls : Writer → ProviderCall}
    {arts : List GeneratedArticle}
    (h : generateArticlesParallel config calls = .ok arts) : arts ≠ [] := by
  by_cases he : enabledWriters config = []
  · simp [generateArticlesParallel, he] at h
  · rw [generate_eq_of_enabled config calls he] at h
    by_cases hs : (successResults config calls).isEmpty
    · rw [if_pos hs] at h
      simp at h
    · rw [if_neg hs] at h
      obtain rfl : successResults config calls = arts := by injection h
      simpa using hs

/-- Generic: the length of a `filterMap` equals the length of the filter
by definedness. -/
theorem length_filterMap_isSome {α β : Type} (f : α → Option β) (l : List α) :
    (l.filterMap f).length = (l.filter (fun a => (f a).isSome)).length := by
  induction l with
  | nil => rfl
  | cons a l ih =>
    cases hfa : f a <;>
      simp [List.filterMap_cons, List.filter_cons, hfa, ih]

/-! ## Claim theorems -/

/-- Claim C1, counterexample. The claim says the ranking score equals
`scores.total` whenever a score is present. Here `exA1` carries a present
score record with `total = 0`, yet its ranking score is its word count
`100` — and the Selector accordingly prefers `exA1` over `exA2`, whose
present score `total = 50` would beat `exA1`'s `0` under the claimed
ranking. -/
theorem C1_rank_counterexample :
    selectBestArticle [exA1, exA2] = .ok exA1
    ∧ exA1.scores = some { seo := 0, readability := 0, engagement := 0, total := 0 }
    ∧ exA2.scores = some { seo := 10, readability := 20, engagement := 20, total := 50 }
    ∧ rankScore exA1 = 100
    ∧ rankScore exA2 = 50 :=
  ⟨rfl, rfl, rfl, rfl, rfl⟩

/-- Claim C1, amended: the ranking score `selectBestArticle` attaches to a
result equals its `scores.total` whenever a score is present with non-zero
total, and falls back to its `wordCount` when no score is present or the
present total is zero (JS `||` treats the number `0` as falsy). -/
theorem C1_rank_fallback (a : GeneratedArticle) :
    (∀ sc, a.scores = some sc → sc.total ≠ 0 → rankScore a = sc.total)
    ∧ (a.scores = none → rankScore a = (a.wordCount : Int))
    ∧ (∀ sc, a.scores = some sc → sc.total = 0 → rankScore a = (a.wordCount : Int)) := by
  refine ⟨fun sc hsc hnz => ?_, fun hn => ?_, fun sc hsc hz => ?_⟩
  · rw [rankScore, hsc]
    exact if_neg hnz
  · rw [rankScore, hn]
  · rw [rankScore, hsc]
    exact if_pos hz

/-- Claim C1, witness: the amended rule evaluated on concrete articles. -/
theorem C1_rank_fallback_witness :
    rankScore exA2 = 50 ∧ rankScore exA1 = 100 ∧ rankScore exA3 = 100 :=
  ⟨(C1_rank_fallback exA2).1 { seo := 10, readability := 20, engagement := 20, total := 50 }
      rfl (by decide),
    (C1_rank_fallback exA1).2.2 { seo := 0, readability := 0, engagement := 0, total := 0 }
      rfl rfl,
    (C1_rank_fallback exA3).2.1 rfl⟩

/-- Claim C3: `selectBestArticle` returns a singleton's element unchanged;
on any non-empty list it succeeds with an element that no ranking score
exceeds and that strictly beats every element before it — so a unique
strict maximum wins and ties go to the earlier element. -/
theorem C3_selector_spec :
    (∀ a, selectBestArticle [a] = .ok a)
    ∧ ∀ l : List GeneratedArticle, l ≠ [] →
        ∃ best l1 l2, selectBestArticle l = .ok best
          ∧ l = l1 ++ best :: l2
          ∧ (∀ y ∈ l1, rankScore y < rankScore best)
          ∧ (∀ y ∈ l, rankScore y ≤ rankScore best) :=
  ⟨fun _ => rfl, selectBest_spec⟩

/-- Claim C3, witness: the selection property instantiated on the
two-element list `[exA1, exA3]`, whose ranking scores tie at `100`. -/
theorem C3_selector_spec_witness :
    ∃ best l1 l2, selectBestArticle [exA1, exA3] = .ok best
      ∧ [exA1, exA3] = l1 ++ best :: l2
      ∧ (∀ y ∈ l1, rankScore y < rankScore best)
      ∧ (∀ y ∈ [exA1, exA3], rankScore y ≤ rankScore best) :=
  C3_selector_spec.2 [exA1, exA3] (by decide)

/-- Claim C9: on the empty outcome list `selectBestArticle` does not
return a result but throws `'No articles to select from'`, a message
distinct from the orchestrator's two failure messages. -/
theorem C9_empty_selection_throws :
    selectBestArticle [] = .error noArticlesMsg
    ∧ noArticlesMsg ≠ allFailedMsg
    ∧ noArticlesMsg ≠ noKeysMsg :=
  ⟨rfl, by decide, by decide⟩

/-- Claim C2, counterexample. The claim asserts `wordCount` equals the
whitespace-token count of the content for every content string, the empty
string included. A ChatGPT response with no content yields the content
`''`, whose JS `split(/\s+/)` is `['']` of length `1`, while its
whitespace-token count is `0`. -/
theorem C2_wordcount_counterexample :
    (writeWithChatGPT exOutline { content := none, usageWords := 7 } 0).wordCount = 1
    ∧ countTokens ([] : List Char) = 0
    ∧ (1 : Nat) ≠ 0 :=
  ⟨rfl, rfl, by decide⟩

/-- Claim C2, amended: every adapter sets `wordCount` to
`content.split(/\s+/).length` of its extracted content, never to the
vendor-reported count (changing the vendor count never changes the
result); this split length equals the whitespace-token count whenever the
content is non-empty and neither starts nor ends with whitespace (for the
empty string it is `1`). -/
theorem C2_wordcount_recomputed (outline : ArticleOutline)
    (g : GeminiResponse) (c : ChatGPTResponse) (cl : ClaudeResponse)
    (now : Nat) :
    (writeWithGemini outline g now).wordCount = jsWordCount g.text
    ∧ (writeWithChatGPT outline c now).wordCount = jsWordCount (c.content.getD [])
    ∧ (writeWithClaude outline cl now).wordCount = jsWordCount (claudeText cl.content)
    ∧ (∀ n, (writeWithGemini outline { g with usageWords := n } now).wordCount
        = (writeWithGemini outline g now).wordCount)
    ∧ (∀ n, (writeWithChatGPT outline { c with usageWords := n } now).wordCount
        = (writeWithChatGPT outline c now).wordCount)
    ∧ (∀ n, (writeWithClaude outline { cl with usageWords := n } now).wordCount
        = (writeWithClaude outline cl now).wordCount)
    ∧ (g.text ≠ [] →
        (g.text.head?.all fun ch => !isWsChar ch) = true →
        (g.text.getLast?.all fun ch => !isWsChar ch) = true →
        jsWordCount g.text = countTokens g.text) := by
  refine ⟨rfl, rfl, rfl, fun n => rfl, fun n => rfl, fun n => rfl,
    fun hne hh hl => ?_⟩
  apply jsWordCount_eq_countTokens g.text hne
  · intro ch hch
    rw [hch] at hh
    simpa using hh
  · intro ch hch
    rw [hch] at hl
    simpa using hl

/-- Claim C2, witness: the adapters evaluated on a concrete response whose
text `"ab c"` has two tokens and a bogus vendor count of `999`. -/
theorem C2_wordcount_recomputed_witness :
    (writeWithGemini exOutline exGemResp 3).wordCount = jsWordCount exGemResp.text
    ∧ jsWordCount exGemResp.text = countTokens exGemResp.text
    ∧ (writeWithGemini exOutline { exGemResp with usageWords := 5 } 3).wordCount
        = (writeWithGemini exOutline exGemResp 3).wordCount :=
  have h := C2_wordcount_recomputed exOutline exGemResp
    { content := none, usageWords := 7 } { content := [], usageWords := 7 } 3
  ⟨h.1, h.2.2.2.2.2.2 (by decide) (by decide) (by decide), h.2.2.2.1 5⟩

/-- Claim C4: when no provider has a truthy credential the orchestrator
fails with the no-keys message and dispatches to an empty provider list;
in general a provider is dispatched iff its credential is present and
non-empty. -/
theorem C4_provider_gating (config : AIConfig) (calls : Writer → ProviderCall) :
    ((∀ w, truthyKey (keyFor config w) = false) →
      generateArticlesParallel config calls = .error noKeysMsg
        ∧ enabledWriters config = [])
    ∧ (∀ w, w ∈ enabledWriters config ↔ truthyKey (keyFor config w) = true) := by
  refine ⟨fun h => ?_, enabledWriters_mem config⟩
  have hg : truthyKey config.geminiApiKey = false := h .gemini
  have ho : truthyKey config.openaiApiKey = false := h .chatgpt
  have ha : truthyKey config.anthropicApiKey = false := h .claude
  have he : enabledWriters config = [] := by
    rw [enabledWriters, hg, ho, ha]
    rfl
  exact ⟨by simp [generateArticlesParallel, he], he⟩

/-- Claim C4, witness: with no credentials the orchestrator fails with the
no-keys message, and for the scenario credentials
`{gemini: "key1", openai: "", anthropic: "key3"}` exactly Gemini and
Claude are dispatched, ChatGPT never. -/
theorem C4_provider_gating_witness :
    generateArticlesParallel cfgNone exCallsFail = .error noKeysMsg
    ∧ Writer.gemini ∈ enabledWriters cfgEx
    ∧ Writer.claude ∈ enabledWriters cfgEx
    ∧ Writer.chatgpt ∉ enabledWriters cfgEx :=
  ⟨((C4_provider_gating cfgNone exCallsFail).1 (fun w => by cases w <;> rfl)).1,
    ((C4_provider_gating cfgEx exCallsFail).2 Writer.gemini).mpr (by decide),
    ((C4_provider_gating cfgEx exCallsFail).2 Writer.claude).mpr (by decide),
    fun h =>
      absurd (((C4_provider_gating cfgEx exCallsFail).2 Writer.chatgpt).mp h)
        (by decide)⟩

/-- Claim C5: when every dispatched provider call fails, the orchestrator
fails with the all-failed message, which differs from the no-keys
message raised for an empty enabled set. -/
theorem C5_all_failed (config : AIConfig) (calls : Writer → ProviderCall)
    (h1 : enabledWriters config ≠ [])
    (h2 : ∀ w ∈ enabledWriters config, ∃ e, (calls w).outcome = .error e) :
    generateArticlesParallel config calls = .error allFailedMsg
    ∧ allFailedMsg ≠ noKeysMsg := by
  refine ⟨?_, by decide⟩
  rw [generate_eq_of_enabled config calls h1]
  rw [if_pos ?_]
  rw [successResults_eq_filterMap]
  simp only [List.isEmpty_eq_true, List.filterMap_eq_nil_iff]
  intro w hw
  obtain ⟨e, he⟩ := h2 w hw
  rw [he]
  rfl

/-- Claim C5, witness: all three providers enabled, all three calls fail. -/
theorem C5_all_failed_witness :
    generateArticlesParallel cfgAll exCallsFail = .error allFailedMsg :=
  (C5_all_failed cfgAll exCallsFail (by decide)
    (fun w _ => ⟨"boom", by cases w <;> rfl⟩)).1

/-- Claim C6: as soon as one enabled provider call is fulfilled, the
orchestrator succeeds with exactly the fulfilled results — one per
successful provider, in dispatch order, the failures removing nothing —
and their number equals the number of successful enabled providers. -/
theorem C6_partial_success (config : AIConfig) (calls : Writer → ProviderCall)
    (h : ∃ w ∈ enabledWriters config, (okArticle (calls w).outcome).isSome = true) :
    generateArticlesParallel config calls = .ok (successResults config calls)
    ∧ (successResults config calls).length
        = ((enabledWriters config).filter
            (fun w => (okArticle (calls w).outcome).isSome)).length := by
  obtain ⟨w, hw, hok⟩ := h
  have hne : enabledWriters config ≠ [] := List.ne_nil_of_mem hw
  obtain ⟨a, ha⟩ := Option.isSome_iff_exists.mp hok
  have hmem : a ∈ successResults config calls := by
    rw [successResults_eq_filterMap]
    exact List.mem_filterMap.mpr ⟨w, hw, ha⟩
  refine ⟨?_, ?_⟩
  · rw [generate_eq_of_enabled config calls hne]
    rw [if_neg (by simpa using List.ne_nil_of_mem hmem)]
  · rw [successResults_eq_filterMap]
    exact length_filterMap_isSome _ _


/-- Claim C6, witness: of the three enabled providers in `exCalls`, Gemini
and Claude succeed and ChatGPT fails; the orchestrator returns exactly
those two results. -/
theorem C6_partial_success_witness :
    generateArticlesParallel cfgAll exCalls = .ok [exA1, exA3]
    ∧ (successResults cfgAll exCalls).length = 2 :=
  have h := C6_partial_success cfgAll exCalls ⟨Writer.gemini, by decide, rfl⟩
  ⟨h.1.trans rfl, h.2.trans rfl⟩

/-- Claim C7, counterexample. The claim says the returned sequence follows
completion settlement order and is non-deterministic. In `exCalls` the
Claude call settles first (time 1) and the Gemini call last (time 100),
so the completion order of the successes is `[exA3, exA1]`; yet the code
returns `[exA1, exA3]` — the dispatch order — because
`Promise.allSettled` reports outcomes in input order. -/
theorem C7_completion_order_counterexample :
    generateArticlesParallel cfgAll exCalls = .ok [exA1, exA3]
    ∧ completionOrderResults cfgAll exCalls = [exA3, exA1]
    ∧ exA1 ≠ exA3 :=
  ⟨rfl, rfl, by decide⟩

/-- Claim C7, amended: the returned sequence is deterministic — it depends
only on the per-provider outcomes, not on when the calls settle — and a
successful return is exactly the fulfilled results in dispatch order
(Gemini, ChatGPT, Claude restricted to the enabled set). -/
theorem C7_dispatch_order (config : AIConfig)
    (calls calls' : Writer → ProviderCall)
    (h : ∀ w, (calls w).outcome = (calls' w).outcome) :
    generateArticlesParallel config calls = generateArticlesParallel config calls'
    ∧ ∀ arts, generateArticlesParallel config calls = .ok arts →
        arts = (enabledWriters config).filterMap
          (fun w => okArticle (calls w).outcome) := by
  constructor
  · simp [generateArticlesParallel, allSettled, h]
  · intro arts harts
    by_cases he : enabledWriters config = []
    · simp [generateArticlesParallel, he] at harts
    · rw [generate_eq_of_enabled config calls he] at harts
      by_cases hs : (successResults config calls).isEmpty
      · rw [if_pos hs] at harts
        simp at harts
      · rw [if_neg hs] at harts
        have hsym := harts.symm
        injection hsym with h2
        rw [h2]
        exact successResults_eq_filterMap config calls

/-- Claim C7, witness: retiming the calls of `exCalls` arbitrarily leaves
the output unchanged, and the output is the dispatch-order success list. -/
theorem C7_dispatch_order_witness :
    generateArticlesParallel cfgAll exCalls
      = generateArticlesParallel cfgAll exCallsRetimed
    ∧ [exA1, exA3] = (enabledWriters cfgAll).filterMap
        (fun w => okArticle (exCalls w).outcome) :=
  have h := C7_dispatch_order cfgAll exCalls exCallsRetimed
    (fun w => by cases w <;> rfl)
  ⟨h.1, h.2 [exA1, exA3] rfl⟩

/-- Claim C8: whenever generation succeeds, a failing publishing sink is
caught — the scheduled handler still responds 200 with `success: true`
and the selected article, and reports the failure only as `odoo: null`. -/
theorem C8_odoo_failure_nonfatal (config : AIConfig)
    (calls : Writer → ProviderCall) (oerr : String)
    (arts : List GeneratedArticle)
    (h : generateArticlesParallel config calls = .ok arts) :
    ∃ best, selectBestArticle arts = .ok best
      ∧ scheduleHandler config calls (.error oerr) =
          { status := 200
            success := true
            articleTitle := some best.title
            articleWriter := some best.writer
            articleWordCount := some best.wordCount
            odoo := none
            errorMsg := none } := by
  obtain ⟨best, hbest⟩ := selectBest_ok_of_ne_nil arts (generate_ok_ne_nil h)
  refine ⟨best, hbest, ?_⟩
  simp [scheduleHandler, h, hbest]

/-- Claim C8, witness: with only Gemini enabled and succeeding, an Odoo
failure still yields the 200 success response with `odoo: null`. -/
theorem C8_odoo_failure_nonfatal_witness :
    ∃ best, selectBestArticle [exA1] = .ok best
      ∧ scheduleHandler cfgG exCallsOk (.error "Odoo API error: Bad Gateway") =
          { status := 200
            success := true
            articleTitle := some best.title
            articleWriter := some best.writer
            articleWordCount := some best.wordCount
            odoo := none
            errorMsg := none } :=
  C8_odoo_failure_nonfatal cfgG exCallsOk "Odoo API error: Bad Gateway" [exA1] rfl

/-- Claim C10, counterexample. The claim says `validateOutline` throws
exactly when the body is missing or not an object, the topic is missing or
not a string, or keywords is missing or an empty array. In `exBadBody` the
body is a truthy object, the topic is present and of type string (the
empty string), and keywords is a one-element array — yet the code throws
the topic error, because the empty string is falsy in JS. -/
theorem C10_validate_counterexample :
    validateOutline exBadBody = .error topicRequiredMsg
    ∧ bodyBad exBadBody = false
    ∧ jsTypeof (jsGet exBadBody "topic") = "string"
    ∧ isArrB (jsGet exBadBody "keywords") = true
    ∧ arrLen (jsGet exBadBody "keywords") = 1 :=
  ⟨rfl, rfl, rfl, rfl, rfl⟩


/-- A non-number field leaves `jsNumOr` at its default. -/
theorem jsNumOr_default (v : JSValue) (d : Int) (h : jsTypeof v ≠ "number") :
    jsNumOr v d = d := by
  cases v <;> first | rfl | exact absurd rfl h

/-- A non-array field leaves `arrElems` at the empty list. -/
theorem arrElems_default (v : JSValue) (h : isArrB v = false) :
    arrElems v = [] := by
  cases v <;> first | rfl | exact absurd h (by simp [isArrB])

/-- Any category value other than the exact string `'kompensatory_svg'`
gives the default category. -/
theorem jsCategoryOf_default (v : JSValue) (h : isSvgB v = false) :
    jsCategoryOf v = "kompensacja_mocy_biernej" := by
  cases v with
  | str s =>
    rw [isSvgB] at h
    simp [jsCategoryOf, h]
  | _ => rfl

/-- The exact string `'kompensatory_svg'` is kept as the category. -/
theorem jsCategoryOf_svg (v : JSValue) (h : isSvgB v = true) :
    jsCategoryOf v = "kompensatory_svg" := by
  cases v with
  | str s =>
    rw [isSvgB] at h
    rw [jsCategoryOf, if_pos h]
    exact eq_of_beq h
  | _ => exact absurd h (by simp [isSvgB])

/-- Claim C10, amended: `validateOutline` throws exactly when the body is
falsy or not of type object, the topic field is falsy (missing or the
empty string) or not of type string, or the keywords field is not an array
or an empty array; every body passing those checks yields an outline with
the claimed defaults — `targetLength` is `1500` when the field is not a
number, `sections` is `[]` when the field is not an array, and `category`
is `'kompensacja_mocy_biernej'` for every value other than the exact
string `'kompensatory_svg'`. -/
theorem C10_validate_spec (body : JSValue) :
    ((∃ e, validateOutline body = .error e) ↔
      (bodyBad body = true ∨ topicBad body = true ∨ keywordsBad body = true))
    ∧ (∀ o, validateOutline body = .ok o →
        o.topic = asStr (jsGet body "topic")
        ∧ o.keywords = arrElems (jsGet body "keywords")
        ∧ (jsTypeof (jsGet body "targetLength") ≠ "number" →
            o.targetLength = 1500)
        ∧ (isArrB (jsGet body "sections") = false → o.sections = [])
        ∧ (isSvgB (jsGet body "category") = false →
            o.category = "kompensacja_mocy_biernej")
        ∧ (isSvgB (jsGet body "category") = true →
            o.category = "kompensatory_svg")) := by
  by_cases hb : bodyBad body = true
  · refine ⟨⟨fun _ => Or.inl hb, fun _ => ⟨bodyRequiredMsg, ?_⟩⟩, fun o ho => ?_⟩
    · rw [validateOutline, if_pos hb]
    · rw [validateOutline, if_pos hb] at ho
      exact absurd ho (by simp)
  · by_cases ht : topicBad body = true
    · refine ⟨⟨fun _ => Or.inr (Or.inl ht), fun _ => ⟨topicRequiredMsg, ?_⟩⟩,
        fun o ho => ?_⟩
      · rw [validateOutline, if_neg hb, if_pos ht]
      · rw [validateOutline, if_neg hb, if_pos ht] at ho
        exact absurd ho (by simp)
    · by_cases hk : keywordsBad body = true
      · refine ⟨⟨fun _ => Or.inr (Or.inr hk), fun _ => ⟨keywordsRequiredMsg, ?_⟩⟩,
          fun o ho => ?_⟩
        · rw [validateOutline, if_neg hb, if_neg ht, if_pos hk]
        · rw [validateOutline, if_neg hb, if_neg ht, if_pos hk] at ho
          exact absurd ho (by simp)
      · have hok : validateOutline body =
            .ok
              { topic := asStr (jsGet body "topic")
                keywords := arrElems (jsGet body "keywords")
                targetLength := jsNumOr (jsGet body "targetLength") 1500
                sections := arrElems (jsGet body "sections")
                category := jsCategoryOf (jsGet body "category") } := by
          rw [validateOutline, if_neg hb, if_neg ht, if_neg hk]
        refine ⟨⟨fun ⟨e, he⟩ => ?_, fun hbad => ?_⟩, fun o ho => ?_⟩
        · rw [hok] at he
          exact absurd he (by simp)
        · rcases hbad with hbad | hbad | hbad
          · exact absurd hbad hb
          · exact absurd hbad ht
          · exact absurd hbad hk
        · rw [hok] at ho
          have ho2 : o =
              { topic := asStr (jsGet body "topic")
                keywords := arrElems (jsGet body "keywords")
                targetLength := jsNumOr (jsGet body "targetLength") 1500
                sections := arrElems (jsGet body "sections")
                category := jsCategoryOf (jsGet body "category") } := by
            injection ho with h1
            exact h1.symm
          subst ho2
          exact ⟨rfl, rfl,
            fun htl => jsNumOr_default _ _ htl,
            fun hsec => arrElems_default _ hsec,
            fun hcat => jsCategoryOf_default _ hcat,
            fun hcat => jsCategoryOf_svg _ hcat⟩

/-- Claim C10, witness: a falsy body throws, and the minimal valid body
`{topic: "t", keywords: ["k"]}` yields the default target length `1500`,
empty sections and the default category. -/
theorem C10_validate_spec_witness :
    (∃ e, validateOutline JSValue.undefined = .error e)
    ∧ validateOutline exGoodBody = .ok exGoodOutline
    ∧ exGoodOutline.targetLength = 1500
    ∧ exGoodOutline.sections = []
    ∧ exGoodOutline.category = "kompensacja_mocy_biernej" :=
  have h := (C10_validate_spec exGoodBody).2 exGoodOutline rfl
  ⟨(C10_validate_spec JSValue.undefined).1.mpr (Or.inl rfl),
    rfl, h.2.2.1 (by decide), h.2.2.2.1 rfl, h.2.2.2.2.1 rfl⟩
